import Mathlib

/-!
Verification of the multi-tier adaptive caching engine
(`backend/services/advanced_cache_service.py`, `cache_components.py`,
`cache_operations.py`) against its natural-language specification.

The Python code is shallowly embedded: the in-process LRU store (Tier 1),
the Redis adapter (Tier 2) and the database adapter (Tier 3) become pure
Lean functions over explicit state records.  Timestamps are integers
(seconds), Python float TTL arithmetic is modelled with exact rationals
truncated toward zero as Python `int()` does, and backend failures
(caught `except` branches in the source) are modelled by `reachable` /
`commitFails` flags on the backend state: an unreachable backend makes
the operation take exactly the branch the `except` handler takes.
-/

namespace SenAICache

/-- Python values stored in the cache.  `PyVal.none` is the Python `None`,
which doubles as the "absent" result of every lookup in the source. -/
inductive PyVal where
  | none
  | int (n : ℤ)
  | str (s : String)
  deriving DecidableEq, Repr

/-- Python `pattern in key` / SQL `LIKE %pattern%` substring containment
(for wildcard-free patterns), on the underlying character lists. -/
def substrB (p s : String) : Bool :=
  (s.data.tails).any (fun t => p.data.isPrefixOf t)

/-- Python `int(b * q * k)` for an exact rational multiplier `q`:
`b * q * k = (b * q.num * k) / q.den` exactly, and `int()` truncates
toward zero. -/
def pyScale (b : ℤ) (q : ℚ) (k : ℤ) : ℤ := Int.tdiv (b * q.num * k) (q.den : ℤ)

/-- `CacheEntry` dataclass of `cache_components.py` (Tier-1 entry). -/
structure CacheEntry where
  key : String
  value : PyVal
  created_at : ℤ
  expires_at : ℤ
  access_count : ℕ
  last_accessed : ℤ
  cache_type : String
  ttl : ℤ
  deriving DecidableEq, Repr

/-- `CacheStats` dataclass: process-wide counters. -/
structure CacheStats where
  hits : ℕ := 0
  misses : ℕ := 0
  sets : ℕ := 0
  evictions : ℕ := 0
  l1_hits : ℕ := 0
  l2_hits : ℕ := 0
  l3_hits : ℕ := 0
  l1_misses : ℕ := 0
  l2_misses : ℕ := 0
  l3_misses : ℕ := 0
  deriving DecidableEq, Repr

/-- The Tier-1 `LRUCache`: an ordered association list mirroring the
`OrderedDict` of the source, first element = least recently used. -/
structure LRUCache where
  max_size : ℕ
  cache : List (String × CacheEntry)
  deriving DecidableEq, Repr

/-- Entry stored under a key, if any (`self.cache[key]` read access). -/
def LRUCache.lookup (c : LRUCache) (key : String) : Option CacheEntry :=
  (c.cache.find? (fun p => p.1 == key)).map Prod.snd

/-- `LRUCache.get`: expired entries are deleted and reported absent;
fresh hits are moved to the most-recently-used end and their access
statistics bumped. -/
def LRUCache.get (c : LRUCache) (now : ℤ) (key : String) : PyVal × LRUCache :=
  match c.cache.find? (fun p => p.1 == key) with
  | Option.none => (PyVal.none, c)
  | Option.some p =>
    if now > p.2.expires_at then
      (PyVal.none, { c with cache := c.cache.filter (fun q => !(q.1 == key)) })
    else
      let e2 := { p.2 with access_count := p.2.access_count + 1, last_accessed := now }
      (p.2.value, { c with cache := c.cache.filter (fun q => !(q.1 == key)) ++ [(key, e2)] })

/-- The `while len(self.cache) >= self.max_size` eviction loop of
`LRUCache.set`: drop the first (least recently used) element while at or
over capacity. -/
def evictLoop (max_size : ℕ) : List (String × CacheEntry) → List (String × CacheEntry)
  | [] => []
  | x :: xs => if max_size ≤ xs.length + 1 then evictLoop max_size xs else x :: xs

/-- `LRUCache.set`: remove any old entry for the key, evict from the LRU
end while at capacity, then append the new entry at the most-recently-used
end.  Always returns `true` as in the source. -/
def LRUCache.set (c : LRUCache) (now : ℤ) (key : String) (v : PyVal) (ttl : ℤ)
    (ct : String) : Bool × LRUCache :=
  let l1 := c.cache.filter (fun q => !(q.1 == key))
  let l2 := evictLoop c.max_size l1
  let e : CacheEntry :=
    { key := key, value := v, created_at := now, expires_at := now + ttl,
      access_count := 0, last_accessed := now, cache_type := ct, ttl := ttl }
  (true, { c with cache := l2 ++ [(key, e)] })

/-- `LRUCache.delete`. -/
def LRUCache.delete (c : LRUCache) (key : String) : Bool × LRUCache :=
  if c.cache.any (fun q => q.1 == key) then
    (true, { c with cache := c.cache.filter (fun q => !(q.1 == key)) })
  else (false, c)

/-- `LRUCache.size`. -/
def LRUCache.size (c : LRUCache) : ℕ := c.cache.length

/-- State of the Tier-2 Redis backend.  `reachable := false` models a
connectivity failure: every client call raises and the adapter takes its
`except` branch. -/
structure RedisState where
  reachable : Bool
  kv : List (String × PyVal × ℤ)
  deriving DecidableEq, Repr

/-- `CacheOperations.set_to_l2` (`setex`): returns `false` when the
backend raises. -/
def set_to_l2 (r : RedisState) (key : String) (v : PyVal) (ttl : ℤ) :
    Bool × RedisState :=
  if r.reachable then
    (true, { r with kv := (key, v, ttl) :: r.kv.filter (fun q => !(q.1 == key)) })
  else (false, r)

/-- `CacheOperations.get_from_l2`: the JSON round trip is the identity on
stored values; a raised error yields `None` exactly like a miss. -/
def get_from_l2 (r : RedisState) (key : String) : PyVal :=
  if r.reachable then
    match r.kv.find? (fun q => q.1 == key) with
    | Option.some q => q.2.1
    | Option.none => PyVal.none
  else PyVal.none

/-- `CacheOperations.delete_from_l2`: `true` on a completed call (even if
the key was absent), `false` when the backend raises. -/
def delete_from_l2 (r : RedisState) (key : String) : Bool × RedisState :=
  if r.reachable then
    (true, { r with kv := r.kv.filter (fun q => !(q.1 == key)) })
  else (false, r)

/-- `CacheOperations.invalidate_pattern_l2` (`keys *pattern*` then
`delete`): substring scan, count of deleted keys, `0` when the backend
raises. -/
def invalidate_pattern_l2 (r : RedisState) (pattern : String) : ℕ × RedisState :=
  if r.reachable then
    ((r.kv.filter (fun q => substrB pattern q.1)).length,
     { r with kv := r.kv.filter (fun q => !(substrB pattern q.1)) })
  else (0, r)

/-- A row of the `cache_entries` table (`CacheEntry` ORM model). -/
structure DbRow where
  cache_key : String
  cache_value : PyVal
  cache_type : String
  expires_at : ℤ
  created_at : ℤ
  access_count : ℤ
  last_accessed : ℤ
  deriving DecidableEq, Repr

/-- State of the Tier-3 database session.  `reachable := false` models a
query raising; `commitFails := true` models `commit()` raising, in which
case the pending changes are not persisted. -/
structure DbSession where
  reachable : Bool
  commitFails : Bool
  rows : List DbRow
  deriving DecidableEq, Repr

/-- Update the first row matching the predicate (SQLAlchemy `.first()`
followed by attribute mutation). -/
def updateFirst (p : DbRow → Bool) (f : DbRow → DbRow) : List DbRow → List DbRow
  | [] => []
  | r :: rs => if p r then f r :: rs else r :: updateFirst p f rs

/-- `CacheOperations.set_to_l3`: upsert by key, bumping `access_count`
and `last_accessed` on an existing row; `false` when the query or the
commit raises (a failed commit is rolled back). -/
def set_to_l3 (s : DbSession) (now : ℤ) (key : String) (v : PyVal) (ttl : ℤ)
    (ct : String) : Bool × DbSession :=
  if !s.reachable then (false, s)
  else if s.commitFails then (false, s)
  else
    match s.rows.find? (fun r => r.cache_key == key) with
    | Option.some _ =>
      let rows2 := updateFirst (fun r => r.cache_key == key)
        (fun r => { r with cache_value := v, expires_at := now + ttl,
                           access_count := r.access_count + 1, last_accessed := now })
        s.rows
      (true, { s with rows := rows2 })
    | Option.none =>
      let newRow : DbRow :=
        { cache_key := key, cache_value := v, cache_type := ct,
          expires_at := now + ttl, created_at := now,
          access_count := 1, last_accessed := now }
      (true, { s with rows := s.rows ++ [newRow] })

/-- `CacheOperations.get_from_l3`: query filtered by
`expires_at > now`; on a hit the access statistics are bumped and
committed, and a raised commit is caught, losing the value (`None` is
returned and nothing is persisted). -/
def get_from_l3 (s : DbSession) (now : ℤ) (key : String) : PyVal × DbSession :=
  if !s.reachable then (PyVal.none, s)
  else
    match s.rows.find? (fun r => r.cache_key == key && now < r.expires_at) with
    | Option.none => (PyVal.none, s)
    | Option.some r =>
      if s.commitFails then (PyVal.none, s)
      else
        let rows2 := updateFirst (fun q => q.cache_key == key && now < q.expires_at)
          (fun q => { q with access_count := q.access_count + 1, last_accessed := now })
          s.rows
        (r.cache_value, { s with rows := rows2 })

/-- `CacheOperations.delete_from_l3`: `true` on a committed delete (even
of zero rows), `false` when the backend raises. -/
def delete_from_l3 (s : DbSession) (key : String) : Bool × DbSession :=
  if !s.reachable then (false, s)
  else if s.commitFails then (false, s)
  else (true, { s with rows := s.rows.filter (fun r => !(r.cache_key == key)) })

/-- `CacheOperations.invalidate_pattern_l3` (`LIKE %pattern%` delete):
returns the number of deleted rows, `0` when the backend raises. -/
def invalidate_pattern_l3 (s : DbSession) (pattern : String) : ℕ × DbSession :=
  if !s.reachable then (0, s)
  else if s.commitFails then (0, s)
  else
    ((s.rows.filter (fun r => substrB pattern r.cache_key)).length,
     { s with rows := s.rows.filter (fun r => !(substrB pattern r.cache_key)) })

/-- Module-level configuration constants of `advanced_cache_service.py`,
with their default values. -/
structure Config where
  adaptive_ttl_enabled : Bool := true
  min_ttl : ℤ := 60
  max_ttl : ℤ := 86400
  ttl_multiplier : ℚ := mkRat 3 2
  l1_default_ttl : ℤ := 300
  l2_default_ttl : ℤ := 3600
  l3_default_ttl : ℤ := 86400
  deriving DecidableEq, Repr

/-- Per-key access pattern record (`self.access_patterns` defaultdict). -/
structure AccessPattern where
  access_count : ℕ := 0
  last_accessed : Option ℤ := Option.none
  cache_type : Option String := Option.none
  deriving DecidableEq, Repr

/-- Look up the pattern for a key, defaulting like the defaultdict. -/
def patternFor (ps : List (String × AccessPattern)) (key : String) : AccessPattern :=
  ((ps.find? (fun p => p.1 == key)).map Prod.snd).getD {}

/-- `AdvancedCacheService._update_access_pattern`. -/
def updatePattern (ps : List (String × AccessPattern)) (key : String) (now : ℤ)
    (ct : String) : List (String × AccessPattern) :=
  (key, { access_count := (patternFor ps key).access_count + 1,
          last_accessed := Option.some now, cache_type := Option.some ct }) ::
    ps.filter (fun p => !(p.1 == key))

/-- `AdvancedCacheService._calculate_adaptive_ttl`. -/
def calcAdaptiveTtl (cfg : Config) (ps : List (String × AccessPattern))
    (key : String) (base_ttl : ℤ) : ℤ :=
  if !cfg.adaptive_ttl_enabled then base_ttl
  else
    let ac := (patternFor ps key).access_count
    let a : ℤ :=
      if 10 < ac then pyScale base_ttl cfg.ttl_multiplier 2
      else if 5 < ac then pyScale base_ttl cfg.ttl_multiplier 1
      else base_ttl
    max cfg.min_ttl (min cfg.max_ttl a)

/-- `CacheLevel` enum. -/
inductive CacheLevel where
  | l1 | l2 | l3
  deriving DecidableEq, Repr

/-- State of an `AdvancedCacheService` instance. -/
structure Svc where
  cfg : Config := {}
  l1_cache : LRUCache
  l2_enabled : Bool
  redis : RedisState
  l3_enabled : Bool
  db : DbSession
  stats : CacheStats := {}
  access_patterns : List (String × AccessPattern) := []
  deriving DecidableEq, Repr

/-- `AdvancedCacheService.get`: cascade L1 to L2 to L3, promoting on a
slower-tier hit and recording per-tier hit/miss counters. -/
def Svc.get (s : Svc) (now : ℤ) (key : String) (ct : String) : PyVal × Svc :=
  let r1 := s.l1_cache.get now key
  let s1 : Svc := { s with l1_cache := r1.2 }
  if r1.1 ≠ PyVal.none then
    (r1.1, { s1 with
      stats := { s1.stats with hits := s1.stats.hits + 1, l1_hits := s1.stats.l1_hits + 1 },
      access_patterns := updatePattern s1.access_patterns key now ct })
  else
    let s2 : Svc := { s1 with stats := { s1.stats with l1_misses := s1.stats.l1_misses + 1 } }
    let v2 := if s2.l2_enabled then get_from_l2 s2.redis key else PyVal.none
    if v2 ≠ PyVal.none then
      let ttl := calcAdaptiveTtl s2.cfg s2.access_patterns key s2.cfg.l1_default_ttl
      let w := s2.l1_cache.set now key v2 ttl ct
      (v2, { s2 with
        l1_cache := w.2,
        stats := { s2.stats with hits := s2.stats.hits + 1, l2_hits := s2.stats.l2_hits + 1 },
        access_patterns := updatePattern s2.access_patterns key now ct })
    else
      let s3 : Svc := { s2 with stats := { s2.stats with l2_misses := s2.stats.l2_misses + 1 } }
      let r3 := if s3.l3_enabled then get_from_l3 s3.db now key else (PyVal.none, s3.db)
      let s4 : Svc := { s3 with db := r3.2 }
      if r3.1 ≠ PyVal.none then
        let ttl1 := calcAdaptiveTtl s4.cfg s4.access_patterns key s4.cfg.l1_default_ttl
        let ttl2 := calcAdaptiveTtl s4.cfg s4.access_patterns key s4.cfg.l2_default_ttl
        let w := s4.l1_cache.set now key r3.1 ttl1 ct
        let rr := if s4.l2_enabled then set_to_l2 s4.redis key r3.1 ttl2 else (false, s4.redis)
        (r3.1, { s4 with
          l1_cache := w.2,
          redis := rr.2,
          stats := { s4.stats with hits := s4.stats.hits + 1, l3_hits := s4.stats.l3_hits + 1 },
          access_patterns := updatePattern s4.access_patterns key now ct })
      else
        (PyVal.none, { s4 with stats :=
          { s4.stats with misses := s4.stats.misses + 1, l3_misses := s4.stats.l3_misses + 1 } })

/-- `AdvancedCacheService.set`: fan out to the requested enabled tiers
with the tier-specific TTLs of the source; the returned flag is the
conjunction of the per-tier results. -/
def Svc.set (s : Svc) (now : ℤ) (key : String) (value : PyVal) (ttl : Option ℤ)
    (ct : String) (levels : Option (List CacheLevel)) : Bool × Svc :=
  let lv := match levels with
    | Option.some l => l
    | Option.none =>
      [CacheLevel.l1] ++ (if s.l2_enabled then [CacheLevel.l2] else []) ++
        (if s.l3_enabled then [CacheLevel.l3] else [])
  let base_ttl := match ttl with
    | Option.some t => if t = 0 then s.cfg.l2_default_ttl else t
    | Option.none => s.cfg.l2_default_ttl
  let adaptive_ttl := calcAdaptiveTtl s.cfg s.access_patterns key base_ttl
  let r1 := if CacheLevel.l1 ∈ lv then
      let l1_ttl := if adaptive_ttl < s.cfg.l1_default_ttl * 2 then adaptive_ttl
                    else s.cfg.l1_default_ttl
      s.l1_cache.set now key value l1_ttl ct
    else (true, s.l1_cache)
  let r2 := if CacheLevel.l2 ∈ lv ∧ s.l2_enabled = true then
      set_to_l2 s.redis key value adaptive_ttl
    else (true, s.redis)
  let r3 := if CacheLevel.l3 ∈ lv ∧ s.l3_enabled = true then
      let l3_ttl := if s.cfg.l2_default_ttl < adaptive_ttl then adaptive_ttl
                    else s.cfg.l3_default_ttl
      set_to_l3 s.db now key value l3_ttl ct
    else (true, s.db)
  let success := r1.1 && r2.1 && r3.1
  let st := if success then { s.stats with sets := s.stats.sets + 1 } else s.stats
  (success, { s with l1_cache := r1.2, redis := r2.2, db := r3.2, stats := st })

/-- `AdvancedCacheService.delete`: a failed Tier-3 delete soft-disables
Tier 3 for the rest of the process lifetime. -/
def Svc.delete (s : Svc) (key : String) (levels : Option (List CacheLevel)) :
    Bool × Svc :=
  let lv := levels.getD [CacheLevel.l1, CacheLevel.l2, CacheLevel.l3]
  let r1 := if CacheLevel.l1 ∈ lv then s.l1_cache.delete key
            else (true, s.l1_cache)
  let r2 := if CacheLevel.l2 ∈ lv ∧ s.l2_enabled = true then delete_from_l2 s.redis key
            else (true, s.redis)
  let r3 := if CacheLevel.l3 ∈ lv ∧ s.l3_enabled = true then delete_from_l3 s.db key
            else (true, s.db)
  let l3e := if CacheLevel.l3 ∈ lv ∧ s.l3_enabled = true ∧ r3.1 = false then false
             else s.l3_enabled
  (r1.1 && r2.1 && r3.1,
   { s with l1_cache := r1.2, redis := r2.2, db := r3.2, l3_enabled := l3e })

/-- `AdvancedCacheService.invalidate_pattern`: substring invalidation
fanned out over the requested enabled tiers, summing the per-tier counts;
a Tier-3 result of zero deleted rows soft-disables Tier 3. -/
def Svc.invalidate_pattern (s : Svc) (pattern : String)
    (levels : Option (List CacheLevel)) : ℕ × Svc :=
  let lv := levels.getD [CacheLevel.l1, CacheLevel.l2, CacheLevel.l3]
  let c1 := if CacheLevel.l1 ∈ lv then
      (s.l1_cache.cache.filter (fun p => substrB pattern p.1)).length
    else 0
  let l1n := if CacheLevel.l1 ∈ lv then
      { s.l1_cache with cache := s.l1_cache.cache.filter (fun p => !(substrB pattern p.1)) }
    else s.l1_cache
  let r2 := if CacheLevel.l2 ∈ lv ∧ s.l2_enabled = true then
      invalidate_pattern_l2 s.redis pattern
    else (0, s.redis)
  let r3 := if CacheLevel.l3 ∈ lv ∧ s.l3_enabled = true then
      invalidate_pattern_l3 s.db pattern
    else (0, s.db)
  let l3e := if CacheLevel.l3 ∈ lv ∧ s.l3_enabled = true ∧ r3.1 = 0 then false
             else s.l3_enabled
  (c1 + r2.1 + r3.1,
   { s with l1_cache := l1n, redis := r2.2, db := r3.2, l3_enabled := l3e })

/-- Empty Tier-1 store of the given capacity. -/
def lruEmpty (n : ℕ) : LRUCache := { max_size := n, cache := [] }

/-- Unreachable Redis backend. -/
def redisDown : RedisState := { reachable := false, kv := [] }

/-- Absent database session. -/
def dbDown : DbSession := { reachable := false, commitFails := false, rows := [] }

/-- Healthy database session holding the given rows. -/
def dbUp (rows : List DbRow) : DbSession :=
  { reachable := true, commitFails := false, rows := rows }

/-- Service with only Tier 1 available (Redis off, no database session). -/
def svcL1Only : Svc :=
  { l1_cache := lruEmpty 1000, l2_enabled := false, redis := redisDown,
    l3_enabled := false, db := dbDown }

/-- A fresh, unexpired Tier-1 entry holding an integer value. -/
def sampleEntry (k : String) (v : ℤ) : CacheEntry :=
  { key := k, value := PyVal.int v, created_at := 0, expires_at := 1000,
    access_count := 0, last_accessed := 0, cache_type := "g", ttl := 1000 }

/-- A fresh, unexpired Tier-3 row holding an integer value. -/
def sampleRow (k : String) (v : ℤ) : DbRow :=
  { cache_key := k, cache_value := PyVal.int v, cache_type := "g",
    expires_at := 1000, created_at := 0, access_count := 0, last_accessed := 0 }

/-- Capacity-2 Tier-1 scenario of the spec: the four steps
`set(a,1)`, `set(b,2)`, `get(a)`, `set(c,3)` at successive times. -/
def lruDemo1 : LRUCache := ((lruEmpty 2).set 0 "a" (PyVal.int 1) 1000 "g").2

def lruDemo2 : LRUCache := (lruDemo1.set 1 "b" (PyVal.int 2) 1000 "g").2

def lruDemoGet : PyVal × LRUCache := lruDemo2.get 2 "a"

def lruDemo4 : LRUCache := (lruDemoGet.2.set 3 "c" (PyVal.int 3) 1000 "g").2

/-- A full capacity-2 store used to witness the general eviction law. -/
def lruFull2 : LRUCache :=
  { max_size := 2, cache := [("a", sampleEntry "a" 1), ("b", sampleEntry "b" 2)] }

/-- Service whose Tier 2 is enabled but unreachable (counterexample to
"degraded success" of `set`). -/
def svcC1state : Svc :=
  { l1_cache := lruEmpty 1000, l2_enabled := true, redis := redisDown,
    l3_enabled := false, db := dbDown }

/-- Service with a hot key (12 recorded accesses) and a healthy empty
Tier 3, used against the TTL-formula claim. -/
def svcC2state : Svc :=
  { l1_cache := lruEmpty 1000, l2_enabled := false, redis := redisDown,
    l3_enabled := true, db := dbUp [],
    access_patterns := [("k", { access_count := 12 })] }

/-- One-row Tier-3 session for the read-modify-write claim. -/
def dbC5rows : List DbRow := [sampleRow "k" 5]

/-- Service with the three spec-scenario keys in Tier 1 and Tier 3. -/
def svcC7state : Svc :=
  { l1_cache := { max_size := 1000, cache :=
      [("embedding:userX:msg1", sampleEntry "embedding:userX:msg1" 1),
       ("embedding:userX:msg2", sampleEntry "embedding:userX:msg2" 2),
       ("other:userX", sampleEntry "other:userX" 3)] },
    l2_enabled := false, redis := redisDown,
    l3_enabled := true,
    db := dbUp [sampleRow "embedding:userX:msg1" 1,
                sampleRow "embedding:userX:msg2" 2,
                sampleRow "other:userX" 3] }

/-- The expired Tier-1 entry of the lazy-expiry scenario. -/
def entC8 : CacheEntry := { sampleEntry "k" 5 with expires_at := 5 }

/-- Service whose single Tier-1 entry is already expired at time 10. -/
def svcC8state : Svc :=
  { l1_cache := { max_size := 1000, cache := [("k", entC8)] },
    l2_enabled := false, redis := redisDown, l3_enabled := false, db := dbDown }

/-- Service with a live Tier-3 row that no pattern matches (benign
zero-match invalidation scenario). -/
def svcC9state : Svc :=
  { l1_cache := lruEmpty 10, l2_enabled := false, redis := redisDown,
    l3_enabled := true, db := dbUp [sampleRow "live" 5] }

/-- Service used against the promotion-failure clause: Tier 1 empty,
Tier 2 enabled and unreachable, Tier 3 healthy holding one live row. -/
def svcC6state : Svc :=
  { l1_cache := lruEmpty 1000, l2_enabled := true, redis := redisDown,
    l3_enabled := true, db := dbUp [sampleRow "k" 5] }

/-- The eviction while-loop leaves a list strictly below capacity alone. -/
theorem evictLoop_of_lt {m : ℕ} {l : List (String × CacheEntry)} (h : l.length < m) :
    evictLoop m l = l := by
  cases l with
  | nil => rfl
  | cons x xs =>
    have hx : ¬ (m ≤ xs.length + 1) := by simp at h; omega
    unfold evictLoop
    rw [if_neg hx]

/-- Claim C3: the adaptive TTL calculation returns
base x multiplier x 2 for access counts above 10, base x multiplier for
counts in (5, 10], and the base TTL otherwise, each clamped to
[MIN_TTL, MAX_TTL]; with access count 12, base 300, multiplier 1.5 and
MAX_TTL 3600 it returns 900. -/
theorem C3_adaptive_ttl (cfg : Config) (ps : List (String × AccessPattern))
    (key : String) (base : ℤ) (hEn : cfg.adaptive_ttl_enabled = true) :
    (10 < (patternFor ps key).access_count →
      calcAdaptiveTtl cfg ps key base =
        max cfg.min_ttl (min cfg.max_ttl (pyScale base cfg.ttl_multiplier 2))) ∧
    (5 < (patternFor ps key).access_count → (patternFor ps key).access_count ≤ 10 →
      calcAdaptiveTtl cfg ps key base =
        max cfg.min_ttl (min cfg.max_ttl (pyScale base cfg.ttl_multiplier 1))) ∧
    ((patternFor ps key).access_count ≤ 5 →
      calcAdaptiveTtl cfg ps key base = max cfg.min_ttl (min cfg.max_ttl base)) ∧
    calcAdaptiveTtl { max_ttl := 3600 } [("k", { access_count := 12 })] "k" 300 = 900 := by
  refine ⟨?_, ?_, ?_, by decide⟩
  · intro h1
    simp [calcAdaptiveTtl, hEn, h1]
  · intro h1 h2
    have hn : ¬ (10 < (patternFor ps key).access_count) := by omega
    simp [calcAdaptiveTtl, hEn, hn, h1]
  · intro h1
    have hn1 : ¬ (10 < (patternFor ps key).access_count) := by omega
    have hn2 : ¬ (5 < (patternFor ps key).access_count) := by omega
    simp [calcAdaptiveTtl, hEn, hn1, hn2]

/-- Witness for C3: the hot-key scenario discharges the hypotheses and
evaluates to 900. -/
theorem C3_adaptive_ttl_witness :
    10 < (patternFor [("k", ({ access_count := 12 } : AccessPattern))] "k").access_count ∧
    calcAdaptiveTtl { max_ttl := 3600 } [("k", { access_count := 12 })] "k" 300 = 900 := by
  constructor
  · decide
  · rw [(C3_adaptive_ttl { max_ttl := 3600 } [("k", { access_count := 12 })] "k" 300
      rfl).1 (by decide)]
    decide

/-- Claim C4: the Tier-1 store is bounded; a set of a fresh key at
capacity evicts exactly the least-recently-used (first) entry, recency
being refreshed by every successful get and every set; the capacity-2
scenario set(a,1), set(b,2), get(a), set(c,3) evicts b and keeps a and c. -/
theorem C4_lru_eviction :
    (∀ (c : LRUCache) (now : ℤ) (k : String) (v : PyVal) (ttl : ℤ) (ct : String),
      1 ≤ c.max_size → c.cache.length = c.max_size →
      (∀ p ∈ c.cache, p.1 ≠ k) →
      (c.set now k v ttl ct).2.cache.map Prod.fst =
        (c.cache.map Prod.fst).tail ++ [k]) ∧
    ((lruDemo4.get 4 "b").1 = PyVal.none ∧ (lruDemo4.get 4 "a").1 = PyVal.int 1 ∧
     (lruDemo4.get 4 "c").1 = PyVal.int 3 ∧ lruDemoGet.1 = PyVal.int 1 ∧
     lruDemo4.cache.map Prod.fst = ["a", "c"]) := by
  constructor
  · intro c now k v ttl ct hsz hlen hfresh
    have hfil : c.cache.filter (fun q => !(q.1 == k)) = c.cache := by
      rw [List.filter_eq_self]
      intro a ha
      simpa using hfresh a ha
    unfold LRUCache.set
    simp only [hfil]
    cases hc : c.cache with
    | nil =>
      rw [hc] at hlen
      simp at hlen
      omega
    | cons x xs =>
      rw [hc] at hlen
      simp at hlen
      have h1 : evictLoop c.max_size (x :: xs) = evictLoop c.max_size xs := by
        conv_lhs => rw [evictLoop]
        rw [if_pos (by omega)]
      have h2 : evictLoop c.max_size xs = xs := evictLoop_of_lt (by omega)
      rw [h1, h2]
      simp
  · exact ⟨by decide, by decide, by decide, by decide, by decide⟩

/-- Witness for C4: a full capacity-2 store with fresh key z evicts its
first key a and appends z. -/
theorem C4_lru_eviction_witness :
    (1 ≤ lruFull2.max_size ∧ lruFull2.cache.length = lruFull2.max_size ∧
      (∀ p ∈ lruFull2.cache, p.1 ≠ "z")) ∧
    (lruFull2.set 9 "z" (PyVal.int 9) 10 "g").2.cache.map Prod.fst =
      (lruFull2.cache.map Prod.fst).tail ++ ["z"] := by
  refine ⟨⟨by decide, by decide, by decide⟩, ?_⟩
  exact C4_lru_eviction.1 lruFull2 9 "z" (PyVal.int 9) 10 "g" (by decide) (by decide)
    (by decide)

/-- Counterexample to C1: with Tier 2 enabled but unreachable, the
orchestrated set stores the value in Tier 1 yet returns overall failure,
so a successful Tier-1 write does not imply overall success. -/
theorem C1_counterexample :
    (svcC1state.set 0 "k" (PyVal.int 1) Option.none "generic" Option.none).1 = false ∧
    ((svcC1state.set 0 "k" (PyVal.int 1) Option.none "generic"
        Option.none).2.l1_cache.lookup "k").map CacheEntry.value =
      Option.some (PyVal.int 1) := by
  exact ⟨by decide, by decide⟩

/-- C1 as amended: the result of set is the conjunction of the per-tier
results, so an enabled Tier 2 whose write fails makes the whole set
report failure even though the Tier-1 write (which always succeeds)
stored the value. -/
theorem C1_amended_set_success (s : Svc) (now : ℤ) (key : String) (v : PyVal)
    (ttl : Option ℤ) (ct : String) (h2 : s.l2_enabled = true)
    (hr : s.redis.reachable = false) :
    (∀ t : ℤ, (s.l1_cache.set now key v t ct).1 = true) ∧
    (s.set now key v ttl ct Option.none).1 = false := by
  constructor
  · intro t
    rfl
  · cases h3 : s.l3_enabled <;>
      simp [Svc.set, h2, h3, hr, set_to_l2, LRUCache.set]

/-- Witness for the amended C1 at a concrete unreachable-Redis state. -/
theorem C1_amended_set_success_witness :
    svcC1state.l2_enabled = true ∧ svcC1state.redis.reachable = false ∧
    (svcC1state.set 0 "k" (PyVal.int 1) Option.none "generic" Option.none).1 = false :=
  ⟨rfl, rfl,
    (C1_amended_set_success svcC1state 0 "k" (PyVal.int 1) Option.none "generic"
      rfl rfl).2⟩

/-- Counterexample to C2: with adaptive TTL 10800 (hot key, base 3600),
the Tier-1 write uses TTL 300, not min(10800, 600) = 600, and the Tier-3
row expires at now + 10800, not now + max(10800, 86400) = now + 86400. -/
theorem C2_counterexample :
    ((svcC2state.set 0 "k" (PyVal.int 7) (Option.some 3600) "generic"
        Option.none).2.l1_cache.lookup "k").map CacheEntry.ttl = Option.some 300 ∧
    min (calcAdaptiveTtl svcC2state.cfg svcC2state.access_patterns "k" 3600)
        (2 * svcC2state.cfg.l1_default_ttl) = 600 ∧
    ((svcC2state.set 0 "k" (PyVal.int 7) (Option.some 3600) "generic"
        Option.none).2.db.rows.map DbRow.expires_at) = [10800] ∧
    max (calcAdaptiveTtl svcC2state.cfg svcC2state.access_patterns "k" 3600)
        svcC2state.cfg.l3_default_ttl = 86400 ∧
    (300 : ℤ) ≠ 600 ∧ (10800 : ℤ) ≠ 86400 := by
  exact ⟨by decide, by decide, by decide, by decide, by decide, by decide⟩

/-- C2 as amended: the Tier-1 write uses the adaptive TTL when it is
below 2 x Tier1_base and otherwise falls back to Tier1_base itself, and
the Tier-3 write uses the adaptive TTL when it exceeds Tier2_base and
otherwise falls back to Tier3_base. -/
theorem C2_amended_tier_ttls (s : Svc) (now : ℤ) (key : String) (v : PyVal)
    (t : ℤ) (ct : String) (h3 : s.l3_enabled = true) (hr : s.db.reachable = true)
    (hc : s.db.commitFails = false)
    (hfresh : s.db.rows.find? (fun r => r.cache_key == key) = Option.none)
    (ht : t ≠ 0) :
    (s.set now key v (Option.some t) ct Option.none).2.l1_cache.cache.getLast? =
      Option.some (key,
        { key := key, value := v, created_at := now,
          expires_at := now + (if calcAdaptiveTtl s.cfg s.access_patterns key t <
              s.cfg.l1_default_ttl * 2 then calcAdaptiveTtl s.cfg s.access_patterns key t
            else s.cfg.l1_default_ttl),
          access_count := 0, last_accessed := now, cache_type := ct,
          ttl := if calcAdaptiveTtl s.cfg s.access_patterns key t <
              s.cfg.l1_default_ttl * 2 then calcAdaptiveTtl s.cfg s.access_patterns key t
            else s.cfg.l1_default_ttl }) ∧
    (s.set now key v (Option.some t) ct Option.none).2.db.rows.getLast? =
      Option.some
        { cache_key := key, cache_value := v, cache_type := ct,
          expires_at := now + (if s.cfg.l2_default_ttl <
              calcAdaptiveTtl s.cfg s.access_patterns key t
            then calcAdaptiveTtl s.cfg s.access_patterns key t else s.cfg.l3_default_ttl),
          created_at := now, access_count := 1, last_accessed := now } := by
  cases h2 : s.l2_enabled <;>
    simp [Svc.set, set_to_l3, LRUCache.set, h2, h3, hr, hc, hfresh, ht,
      List.getLast?_concat]

/-- Witness for the amended C2: at the hot-key state the Tier-1 entry
receives TTL 300 and the Tier-3 row expires at 10800. -/
theorem C2_amended_tier_ttls_witness :
    ((svcC2state.set 0 "k" (PyVal.int 7) (Option.some 3600) "generic"
        Option.none).2.l1_cache.cache.getLast?).map (fun p => p.2.ttl) =
      Option.some 300 ∧
    ((svcC2state.set 0 "k" (PyVal.int 7) (Option.some 3600) "generic"
        Option.none).2.db.rows.getLast?).map DbRow.expires_at = Option.some 10800 := by
  have h := C2_amended_tier_ttls svcC2state 0 "k" (PyVal.int 7) 3600 "generic"
    rfl rfl rfl (by decide) (by decide)
  constructor
  · rw [h.1]
    decide
  · rw [h.2]
    decide

/-- Counterexample to C5: on the same stored row, the read returns the
value when the statistics commit succeeds, but returns None (a miss, not
the cached value) when persisting the statistics fails. -/
theorem C5_counterexample :
    (get_from_l3 { reachable := true, commitFails := true, rows := dbC5rows }
      0 "k").1 = PyVal.none ∧
    (get_from_l3 (dbUp dbC5rows) 0 "k").1 = PyVal.int 5 := by
  exact ⟨by decide, by decide⟩

/-- C5 as amended: on a Tier-3 hit the stored access_count is
incremented and last_accessed updated and the value returned; when
persisting those statistics fails, the error is caught and the read
returns None (a miss) with nothing persisted — the value is not returned
to the caller. -/
theorem C5_amended_l3_hit (r : DbRow) (rest : List DbRow) (now : ℤ) (key : String)
    (hk : r.cache_key = key) (hexp : now < r.expires_at) :
    get_from_l3 { reachable := true, commitFails := false, rows := r :: rest } now key =
      (r.cache_value,
       { reachable := true, commitFails := false,
         rows := { r with access_count := r.access_count + 1,
                          last_accessed := now } :: rest }) ∧
    get_from_l3 { reachable := true, commitFails := true, rows := r :: rest } now key =
      (PyVal.none, { reachable := true, commitFails := true, rows := r :: rest }) := by
  have hb : ((fun q => q.cache_key == key && decide (now < q.expires_at)) r) = true := by
    simp [hk, hexp]
  have hfind : List.find? (fun q => q.cache_key == key && decide (now < q.expires_at))
      (r :: rest) = Option.some r := List.find?_cons_of_pos rest hb
  constructor
  · simp [get_from_l3, hfind, updateFirst, hb]
  · simp [get_from_l3, hfind]

/-- Witness for the amended C5 at a concrete one-row session. -/
theorem C5_amended_l3_hit_witness :
    get_from_l3 (dbUp dbC5rows) 0 "k" =
      (PyVal.int 5,
       dbUp [{ sampleRow "k" 5 with access_count := 1, last_accessed := 0 }]) := by
  have h := (C5_amended_l3_hit (sampleRow "k" 5) [] 0 "k" rfl (by decide)).1
  exact h

/-- Claim C6: every Tier-2 and Tier-3 operation turns a backend failure
into a miss, false or 0 instead of raising, and a Tier-3 hit is still
returned when the subsequent Tier-2 promotion write fails. -/
theorem C6_tier_failures_swallowed :
    (∀ (r : RedisState) (key : String) (v : PyVal) (ttl : ℤ) (pat : String),
      r.reachable = false →
      get_from_l2 r key = PyVal.none ∧ (set_to_l2 r key v ttl).1 = false ∧
      (delete_from_l2 r key).1 = false ∧ (invalidate_pattern_l2 r pat).1 = 0) ∧
    (∀ (d : DbSession) (now : ℤ) (key : String) (v : PyVal) (ttl : ℤ) (ct pat : String),
      d.reachable = false →
      (get_from_l3 d now key).1 = PyVal.none ∧ (set_to_l3 d now key v ttl ct).1 = false ∧
      (delete_from_l3 d key).1 = false ∧ (invalidate_pattern_l3 d pat).1 = 0) ∧
    (∀ (s : Svc) (now : ℤ) (key ct : String) (r : DbRow) (rest : List DbRow),
      s.l1_cache.cache = [] → s.l2_enabled = true → s.redis.reachable = false →
      s.l3_enabled = true → s.db.reachable = true → s.db.commitFails = false →
      s.db.rows = r :: rest → r.cache_key = key → now < r.expires_at →
      r.cache_value ≠ PyVal.none →
      (s.get now key ct).1 = r.cache_value ∧ (s.get now key ct).2.redis = s.redis) := by
  refine ⟨?_, ?_, ?_⟩
  · intro r key v ttl pat h
    exact ⟨by simp [get_from_l2, h], by simp [set_to_l2, h],
      by simp [delete_from_l2, h], by simp [invalidate_pattern_l2, h]⟩
  · intro d now key v ttl ct pat h
    exact ⟨by simp [get_from_l3, h], by simp [set_to_l3, h],
      by simp [delete_from_l3, h], by simp [invalidate_pattern_l3, h]⟩
  · intro s now key ct r rest h1 h2 hrr h3 hdb hcf hrows hk hexp hv
    have hb : ((fun q => q.cache_key == key && decide (now < q.expires_at)) r) = true := by
      simp [hk, hexp]
    have hfind : List.find? (fun q => q.cache_key == key && decide (now < q.expires_at))
        (r :: rest) = Option.some r := List.find?_cons_of_pos rest hb
    constructor
    · simp [Svc.get, LRUCache.get, h1, h2, hrr, h3, hdb, hcf, hrows, get_from_l2,
        get_from_l3, hfind, set_to_l2, hv]
    · simp [Svc.get, LRUCache.get, h1, h2, hrr, h3, hdb, hcf, hrows, get_from_l2,
        get_from_l3, hfind, set_to_l2, hv]

/-- Witness for C6: a live Tier-3 row is returned by get while the
promotion write to the unreachable Tier 2 fails and leaves it unchanged. -/
theorem C6_tier_failures_swallowed_witness :
    (svcC6state.get 0 "k" "g").1 = (sampleRow "k" 5).cache_value ∧
    (svcC6state.get 0 "k" "g").2.redis = svcC6state.redis :=
  C6_tier_failures_swallowed.2.2 svcC6state 0 "k" "g" (sampleRow "k" 5) []
    rfl rfl rfl rfl rfl rfl rfl rfl (by decide) (by decide)

/-- Claim C7: pattern invalidation is plain substring containment and
returns the total count removed across tiers; invalidating
embedding:userX removes embedding:userX:msg1 and embedding:userX:msg2
from Tier 1 and Tier 3 (count 4) while other:userX survives in both. -/
theorem C7_pattern_invalidation :
    (∀ (s : Svc) (pattern : String),
      (s.invalidate_pattern pattern (Option.some [CacheLevel.l1])).1 =
        (s.l1_cache.cache.filter (fun p => substrB pattern p.1)).length) ∧
    ((svcC7state.invalidate_pattern "embedding:userX" Option.none).1 = 4 ∧
     (svcC7state.invalidate_pattern "embedding:userX"
        Option.none).2.l1_cache.lookup "embedding:userX:msg1" = Option.none ∧
     (svcC7state.invalidate_pattern "embedding:userX"
        Option.none).2.l1_cache.lookup "embedding:userX:msg2" = Option.none ∧
     ((svcC7state.invalidate_pattern "embedding:userX"
        Option.none).2.l1_cache.lookup "other:userX").map CacheEntry.value =
       Option.some (PyVal.int 3) ∧
     (svcC7state.invalidate_pattern "embedding:userX"
        Option.none).2.db.rows.map DbRow.cache_key = ["other:userX"] ∧
     (svcC7state.invalidate_pattern "embedding:userX" Option.none).2.l3_enabled = true) := by
  constructor
  · intro s pattern
    rfl
  · exact ⟨by decide, by decide, by decide, by decide, by decide, by decide⟩

/-- Counterexample to the expiry-metric part of C8: an expired Tier-1
get removes the entry and reports a miss, but the resulting statistics
equal the prior (all-zero) statistics with only the four miss counters
bumped — no distinct expiry metric exists or is incremented, and the
eviction counter stays 0. -/
theorem C8_counterexample :
    (svcC8state.get 10 "k" "g").1 = PyVal.none ∧
    (svcC8state.get 10 "k" "g").2.l1_cache.cache = [] ∧
    (svcC8state.get 10 "k" "g").2.stats =
      { hits := 0, misses := 1, sets := 0, evictions := 0, l1_hits := 0,
        l2_hits := 0, l3_hits := 0, l1_misses := 1, l2_misses := 1,
        l3_misses := 1 } := by
  exact ⟨by decide, by decide, by decide⟩

/-- C8 as amended: a Tier-1 get past expires_at removes the entry and
reports absent; it is counted as a miss (the overall and per-tier miss
counters increment) and the capacity-eviction counter is untouched; no
separate expiry metric exists, the statistics record changes in no other
field. -/
theorem C8_amended_expired_get (s : Svc) (now : ℤ) (key ct : String) (e : CacheEntry)
    (hfind : s.l1_cache.cache.find? (fun p => p.1 == key) = Option.some (key, e))
    (hexp : e.expires_at < now) (h2 : s.l2_enabled = false) (h3 : s.l3_enabled = false) :
    (s.get now key ct).1 = PyVal.none ∧
    (s.get now key ct).2.l1_cache.cache =
      s.l1_cache.cache.filter (fun q => !(q.1 == key)) ∧
    (s.get now key ct).2.stats =
      { s.stats with
          misses := s.stats.misses + 1, l1_misses := s.stats.l1_misses + 1,
          l2_misses := s.stats.l2_misses + 1, l3_misses := s.stats.l3_misses + 1 } ∧
    (s.get now key ct).2.stats.evictions = s.stats.evictions := by
  have hgt : now > e.expires_at := hexp
  refine ⟨?_, ?_, ?_, ?_⟩ <;>
    simp [Svc.get, LRUCache.get, hfind, hgt, h2, h3]

/-- Witness for the amended C8 at the concrete expired-entry state. -/
theorem C8_amended_expired_get_witness :
    (svcC8state.get 10 "k" "g").1 = PyVal.none ∧
    (svcC8state.get 10 "k" "g").2.stats.evictions = svcC8state.stats.evictions :=
  ⟨(C8_amended_expired_get svcC8state 10 "k" "g" entC8 (by decide) (by decide)
      rfl rfl).1,
   (C8_amended_expired_get svcC8state 10 "k" "g" entC8 (by decide) (by decide)
      rfl rfl).2.2.2⟩

/-- Rebuilding a healthy session from its fields yields the session. -/
theorem dbSession_eta (d : DbSession) (h1 : d.reachable = true)
    (h2 : d.commitFails = false) :
    ({ reachable := true, commitFails := false, rows := d.rows } : DbSession) = d := by
  cases d with
  | mk a b c =>
    simp only at h1 h2
    subst h1
    subst h2
    rfl

/-- Once Tier 3 is soft-disabled, no public operation reads or writes
the database session. -/
theorem l3_disabled_skips_db (t : Svc) (now : ℤ) (key ct : String) (v : PyVal)
    (ttl : Option ℤ) (p2 : String) (h3 : t.l3_enabled = false) :
    (t.get now key ct).2.db = t.db ∧
    (t.set now key v ttl ct Option.none).2.db = t.db ∧
    (t.delete key Option.none).2.db = t.db ∧
    (t.invalidate_pattern p2 Option.none).2.db = t.db := by
  refine ⟨?_, ?_, ?_, ?_⟩
  · simp [Svc.get, h3]
    split <;> first
    | rfl
    | (split <;> rfl)
  · cases h2 : t.l2_enabled <;> simp [Svc.set, h2, h3]
  · simp [Svc.delete, h3]
  · simp [Svc.invalidate_pattern, h3]

/-- Claim C9: a Tier-3 pattern invalidation that deletes zero rows —
even the benign no-match case — flips the Tier-3-enabled flag off, after
which get, set, delete and invalidation all skip Tier 3: the database is
never touched again, and a get of a key only present as a live Tier-3
row misses. -/
theorem C9_zero_match_disables_l3 (s : Svc) (pattern p2 : String) (now : ℤ)
    (key ct : String) (v : PyVal) (ttl : Option ℤ)
    (h3 : s.l3_enabled = true) (hr : s.db.reachable = true)
    (hc : s.db.commitFails = false)
    (hmatch : s.db.rows.filter (fun r => substrB pattern r.cache_key) = [])
    (hl1 : s.l1_cache.cache = []) (hl2 : s.l2_enabled = false) :
    (s.invalidate_pattern pattern Option.none).2.l3_enabled = false ∧
    (s.invalidate_pattern pattern Option.none).2.db = s.db ∧
    ((s.invalidate_pattern pattern Option.none).2.get now key ct).1 = PyVal.none ∧
    ((s.invalidate_pattern pattern Option.none).2.get now key ct).2.db =
      (s.invalidate_pattern pattern Option.none).2.db ∧
    ((s.invalidate_pattern pattern Option.none).2.set now key v ttl ct
        Option.none).2.db = (s.invalidate_pattern pattern Option.none).2.db ∧
    ((s.invalidate_pattern pattern Option.none).2.delete key Option.none).2.db =
      (s.invalidate_pattern pattern Option.none).2.db ∧
    ((s.invalidate_pattern pattern Option.none).2.invalidate_pattern p2
        Option.none).2.db = (s.invalidate_pattern pattern Option.none).2.db := by
  have hneg : s.db.rows.filter (fun r => !(substrB pattern r.cache_key)) = s.db.rows := by
    rw [List.filter_eq_self]
    intro a ha
    have hx := List.filter_eq_nil_iff.mp hmatch a ha
    simp [hx]
  have heta := dbSession_eta s.db hr hc
  have hstate : (s.invalidate_pattern pattern Option.none).2 =
      { s with l1_cache := { s.l1_cache with cache := [] }, l3_enabled := false } := by
    simp [Svc.invalidate_pattern, invalidate_pattern_l3, h3, hr, hc, hmatch, hneg,
      hl1, hl2, heta]
  rw [hstate]
  have hops := l3_disabled_skips_db
    { s with l1_cache := { s.l1_cache with cache := [] }, l3_enabled := false }
    now key ct v ttl p2 rfl
  refine ⟨rfl, rfl, ?_, hops.1, hops.2.1, hops.2.2.1, hops.2.2.2⟩
  simp [Svc.get, LRUCache.get, hl2]

/-- Witness for C9: invalidating a pattern that matches nothing turns
Tier 3 off and a key held only as a live Tier-3 row can no longer be
read. -/
theorem C9_zero_match_disables_l3_witness :
    (svcC9state.invalidate_pattern "nomatch" Option.none).2.l3_enabled = false ∧
    ((svcC9state.invalidate_pattern "nomatch" Option.none).2.get 0 "live" "g").1 =
      PyVal.none :=
  ⟨(C9_zero_match_disables_l3 svcC9state "nomatch" "p" 0 "live" "g" PyVal.none
      Option.none rfl rfl rfl (by decide) rfl rfl).1,
   (C9_zero_match_disables_l3 svcC9state "nomatch" "p" 0 "live" "g" PyVal.none
      Option.none rfl rfl rfl (by decide) rfl rfl).2.2.1⟩

/-- Claim C10: a stored None is indistinguishable from absence at the
public interface: setting None succeeds, but the following get reports
absent and counts a miss, while any non-None value round-trips. -/
theorem C10_none_value_miss (k ct : String) (now : ℤ) (v : PyVal) :
    (svcL1Only.set now k PyVal.none Option.none ct Option.none).1 = true ∧
    ((svcL1Only.set now k PyVal.none Option.none ct Option.none).2.get now k ct).1 =
      PyVal.none ∧
    ((svcL1Only.set now k PyVal.none Option.none ct Option.none).2.get now k
      ct).2.stats.misses = svcL1Only.stats.misses + 1 ∧
    (v ≠ PyVal.none →
      ((svcL1Only.set now k v Option.none ct Option.none).2.get now k ct).1 = v) := by
  have hset : ∀ w : PyVal, svcL1Only.set now k w Option.none ct Option.none =
      (true, { svcL1Only with
          l1_cache := { max_size := 1000, cache := [(k,
            { key := k, value := w, created_at := now, expires_at := now + 300,
              access_count := 0, last_accessed := now, cache_type := ct,
              ttl := 300 })] },
          stats := { sets := 1 } }) := fun w => rfl
  have hn : ¬ (now > now + 300) := by omega
  have e2 : svcL1Only.l2_enabled = false := rfl
  have e3 : svcL1Only.l3_enabled = false := rfl
  refine ⟨rfl, ?_, ?_, ?_⟩
  · rw [hset PyVal.none]
    simp [Svc.get, LRUCache.get, List.find?, hn, e2, e3]
  · rw [hset PyVal.none]
    simp [Svc.get, LRUCache.get, List.find?, hn, e2, e3, svcL1Only]
  · intro hv
    rw [hset v]
    simp [Svc.get, LRUCache.get, List.find?, hn, e2, e3, hv]

/-- Witness for C10: the non-None round trip at a concrete value. -/
theorem C10_none_value_miss_witness :
    (PyVal.int 1 ≠ PyVal.none) ∧
    ((svcL1Only.set 0 "q" (PyVal.int 1) Option.none "g" Option.none).2.get 0 "q"
      "g").1 = PyVal.int 1 :=
  ⟨by decide, (C10_none_value_miss "q" "g" 0 (PyVal.int 1)).2.2.2 (by decide)⟩

end SenAICache
